import Mathlib

/-!
Verification of the CarConnectivity Skoda connector against its
natural-language specification.  The Python source is shallowly embedded:
pure fragments become Lean functions, stateful fragments become explicit
state passing, HTTP traffic becomes an oracle list of responses, and
Python exceptions become `Except` errors.  Source locations are cited next
to each definition.
-/

namespace Skoda

/-! ## Python dictionaries

`json.loads` produces dictionaries with unique keys.  A dictionary is
embedded as an association list; `dget`/`ddel`/`dset` mirror Python's
`d[k]`, `d.pop(k)` and `d[k] = v` (insertion-order preserving update). -/

abbrev PyDict (V : Type) := List (String × V)

def dget {V : Type} (k : String) : PyDict V → Option V
  | [] => none
  | (k', v) :: rest => if k' = k then some v else dget k rest

def ddel {V : Type} (k : String) : PyDict V → PyDict V
  | [] => []
  | (k', v) :: rest => if k' = k then rest else (k', v) :: ddel k rest

def dset {V : Type} (k : String) (v : V) : PyDict V → PyDict V
  | [] => [(k, v)]
  | (k', v') :: rest => if k' = k then (k, v) :: rest else (k', v') :: dset k v rest

def dkeys {V : Type} (d : PyDict V) : List String := d.map Prod.fst

/-! ## Token field normalization

`MySkodaSession.parse_from_body` (auth/my_skoda_session.py, lines 127-153):
before handing the token bundle to the generic OAuth parser it renames the
manufacturer-style keys via `token['access_token'] = token.pop('accessToken')`
and likewise for `idToken` and `refreshToken`. -/

def renameKey {V : Type} (src dst : String) (d : PyDict V) : PyDict V :=
  match dget src d with
  | none => d
  | some v => dset dst v (ddel src d)

def normalizeTokenFields {V : Type} (d : PyDict V) : PyDict V :=
  renameKey "refreshToken" "refresh_token"
    (renameKey "idToken" "id_token"
      (renameKey "accessToken" "access_token" d))

/-! ## Unsubscribe loop (C9)

`SkodaMQTTClient._unsubscribe_vehicle` (mqtt_client.py, lines 243-267)
iterates over the `subscribed_topics` set and removes matching topics from
the same set while iterating.  CPython's set iterator raises
`RuntimeError("Set changed size during iteration")` on the next call to
`next()` after any size change, including the terminating call.  The loop
is embedded with an explicit dirty flag: after a removal, the following
iterator step fails. -/

def strContainsAux (needle : List Char) : List Char → Bool
  | [] => needle.isEmpty
  | c :: rest => needle.isPrefixOf (c :: rest) || strContainsAux needle rest

/-- Python's `vin in topic` substring test. -/
def strContains (needle hay : String) : Bool :=
  strContainsAux needle.toList hay.toList

inductive RuntimeErrorKind where
  | setChangedSize
  deriving DecidableEq, Repr

def unsubscribeLoop (vin : String) : List String → Bool → Except RuntimeErrorKind (List String)
  | [], dirty => if dirty then .error .setChangedSize else .ok []
  | topic :: rest, dirty =>
      if dirty then .error .setChangedSize
      else if strContains vin topic then
        -- self.unsubscribe(topic); self.subscribed_topics.remove(topic)
        unsubscribeLoop vin rest true
      else
        match unsubscribeLoop vin rest false with
        | .ok kept => .ok (topic :: kept)
        | .error e => .error e

/-- `_unsubscribe_vehicle`, applied to the iteration order of the topic set. -/
def unsubscribeVehicle (vin : String) (subscribedTopics : List String) :
    Except RuntimeErrorKind (List String) :=
  unsubscribeLoop vin subscribedTopics false

/-! ## Access-event debounce (C4)

`_on_message_callback`, `vehicle-status/access` branch (mqtt_client.py,
lines 559-601): each `change-access` event cancels the pending per-VIN
timer, if any, and starts a fresh `threading.Timer(2.0, ...)`; the timer
body performs the delayed re-fetches exactly once when it fires.  For a
single VIN this is the following automaton over arrival times: the state
is the pending fire time; an arrival strictly before the pending fire time
cancels and reschedules, an arrival at or after it finds the timer already
fired (an arrival exactly at the fire time is a thread race; the model
lets the timer win, the claim's strict window avoids the tie). -/

def accessDebounceWindow : ℚ := 2

def debounceRun (w : ℚ) : List ℚ → Option ℚ → Nat
  | [], some _ => 1
  | [], none => 0
  | t :: rest, none => debounceRun w rest (some (t + w))
  | t :: rest, some fire =>
      if t < fire then debounceRun w rest (some (t + w))
      else 1 + debounceRun w rest (some (t + w))

/-- Number of executions of `delayed_access_function` for one VIN, given
the arrival times of its `change-access` events. -/
def debounceFetchCount (arrivals : List ℚ) : Nat :=
  debounceRun accessDebounceWindow arrivals none

/-! ## Maximum-current setter (C10)

`Connector.__on_charging_maximum_current_change` (connector.py, lines
1942-1982).  `round` is Python's round-half-to-even; the amount is
quantized to the attribute precision (1.0 when unset, per connector.py
line 1958 and the fetch path at line 526), then either
`{"chargingCurrent": "REDUCED"}` is sent and 6.0 returned or
`{"chargingCurrent": "MAXIMUM"}` is sent and 16.0 returned. -/

def pyRound (q : ℚ) : ℤ :=
  let f : ℤ := ⌊q⌋
  let frac : ℚ := q - f
  if frac < 1 / 2 then f
  else if 1 / 2 < frac then f + 1
  else if f % 2 = 0 then f else f + 1

def quantize (q precision : ℚ) : ℚ :=
  (pyRound (q / precision) : ℚ) * precision

/-- Body value sent in the PUT and the value the setter will return. -/
def chargingCurrentRequest (precision : Option ℚ) (maximumCurrent : ℚ) : String × ℚ :=
  let p : ℚ := precision.getD 1
  let rounded : ℚ := quantize maximumCurrent p
  if rounded < 16 then ("REDUCED", 6) else ("MAXIMUM", 16)

/-- Full setter outcome: the body is always sent; the rounded value is
returned only when the server answers 202 Accepted, otherwise a
`SetterError` is raised (connector.py lines 1969-1972). -/
def onChargingMaximumCurrentChange (precision : Option ℚ) (maximumCurrent : ℚ)
    (responseStatus : Nat) : String × Except Unit ℚ :=
  let req := chargingCurrentRequest precision maximumCurrent
  (req.1, if responseStatus = 202 then .ok req.2 else .error ())

/-! ## Token refresh (C5)

`MySkodaSession.refresh_tokens` (auth/my_skoda_session.py, lines 155-225).
Token values are Python `str` or `None`; `refresh_token or
self.refresh_token` uses Python truthiness, under which both `None` and
the empty string are falsy. -/

/-- Python truthiness of an optional string. -/
def strTruthy : Option String → Bool
  | none => false
  | some s => s ≠ ""

/-- Python `a or b` on optional strings. -/
def pyOr (a b : Option String) : Option String :=
  if strTruthy a then a else b

/-- ASCII lowercasing of one character, as `str.lower` acts on the
scheme part of a URL. -/
def asciiLower (c : Char) : Char :=
  if 65 ≤ c.toNat ∧ c.toNat ≤ 90 then Char.ofNat (c.toNat + 32) else c

/-- `oauthlib.oauth2.is_secure_transport`: the URL, lowercased, must start
with `https://` (modelled from the dependency, with the debug environment
override disabled). -/
def isSecureTransport (url : String) : Bool :=
  "https://".toList.isPrefixOf (url.toList.map asciiLower)

/-- Outcome of the single POST to the refresh endpoint, as provided by the
network.  `parsedToken` is the result of `parse_from_body` on the response
text (`.error` when the body is not valid JSON, in which case
`parse_from_body` raises `TemporaryAuthenticationError`). -/
inductive PostOutcome (τ : Type) where
  | resp (status : Nat) (parsedToken : Except Unit τ)
  | connError
  deriving Repr

inductive RefreshOutcome (τ : Type) where
  | ok (token : Option τ)
  | valueError
  | insecureTransportError
  | temporaryAuthenticationError
  deriving Repr, DecidableEq

structure RefreshResult (τ : Type) where
  outcome : RefreshOutcome τ
  posts : Nat
  logins : Nat
  deriving Repr, DecidableEq

/-- `refresh_tokens(token_url, refresh_token=None, ...)`.
`storedRefreshToken` is `self.refresh_token`; `postLoginToken` is the
value of `self.token` after a successful `login()`; `post` is the
network's answer to the one possible refresh POST. -/
def refresh_tokens (τ : Type) (tokenUrl : String) (refreshTokenArg : Option String)
    (storedRefreshToken : Option String) (postLoginToken : Option τ)
    (post : PostOutcome τ) : RefreshResult τ :=
  if ¬ strTruthy (some tokenUrl) then
    { outcome := .valueError, posts := 0, logins := 0 }
  else if ¬ isSecureTransport tokenUrl then
    { outcome := .insecureTransportError, posts := 0, logins := 0 }
  else
    match pyOr refreshTokenArg storedRefreshToken with
    | none =>
        -- `if refresh_token is None: self.login(); return self.token`
        { outcome := .ok postLoginToken, posts := 0, logins := 1 }
    | some _ =>
        match post with
        | .connError =>
            -- `except ConnectionError: self.login(); return self.token`
            { outcome := .ok postLoginToken, posts := 1, logins := 1 }
        | .resp status parsedToken =>
            if status = 200 then
              match parsedToken with
              | .ok t => { outcome := .ok (some t), posts := 1, logins := 0 }
              | .error _ => { outcome := .temporaryAuthenticationError, posts := 1, logins := 0 }
            else if status = 401 then
              { outcome := .ok postLoginToken, posts := 1, logins := 1 }
            else
              { outcome := .temporaryAuthenticationError, posts := 1, logins := 0 }

/-! ## The REST data fetcher (C3, C6)

`Connector._fetch_data` (connector.py, lines 1434-1482).  The cache maps a
URL to `(payload, cached_at)`; the payload is the decoded JSON of an
earlier response and can itself be JSON `null` (Python `None`), which is
why it is an `Option α`.  Network traffic is an oracle list consumed one
response per GET; a GET beyond the end of the list is treated as a
connection failure.  `session.login()` is modelled as always succeeding
(its own failure modes propagate unchanged and are outside these claims). -/

inductive NetResponse (α : Type) where
  /-- An HTTP response: status code and the outcome of `.json()`
  (`.error` models `JSONDecodeError`, `.ok none` a JSON `null` body). -/
  | http (status : Nat) (body : Except Unit (Option α))
  /-- A transport-layer failure raised by `session.get`
  (`ConnectionError`, `ChunkedEncodingError`, `ReadTimeout`, `RetryError`). -/
  | netFail
  deriving Repr

inductive FetchErr where
  | tooManyRequests
  | retrieval
  deriving Repr, DecidableEq

structure FetchOut (α : Type) where
  result : Except FetchErr (Option α)
  cache : PyDict (Option α × ℤ)
  gets : Nat
  logins : Nat

/-- The raise condition `not allow_http_error or (allowed_errors is not
None and status_code not in allowed_errors)` shared by the two
disallowed-status branches (connector.py lines 1464 and 1466). -/
def statusDisallowed (allowHttpError : Bool) (allowedErrors : Option (List Nat))
    (status : Nat) : Bool :=
  !allowHttpError ||
    (match allowedErrors with
     | some l => decide (status ∉ l)
     | none => false)

/-- Second half of `_fetch_data`: the 401 branch after `session.login()`
(connector.py lines 1455-1465). `data0` is the value the `data` local
holds when the branch is entered. -/
def fetchRetryAfter401 {α : Type} (now : ℤ) (allowEmpty allowHttpError : Bool)
    (allowedErrors : Option (List Nat)) (url : String)
    (cache : PyDict (Option α × ℤ)) (data0 : Option α)
    (retry : NetResponse α) : FetchOut α :=
  match retry with
  | .netFail => { result := .error .retrieval, cache := cache, gets := 2, logins := 1 }
  | .http status body =>
      if status = 200 ∨ status = 207 then
        match body with
        | .ok d =>
            { result := .ok d, cache := dset url (d, now) cache, gets := 2, logins := 1 }
        | .error _ =>
            -- `except JSONDecodeError` at function scope
            if allowEmpty then
              { result := .ok none, cache := cache, gets := 2, logins := 1 }
            else
              { result := .error .retrieval, cache := cache, gets := 2, logins := 1 }
      else if statusDisallowed allowHttpError allowedErrors status then
        { result := .error .retrieval, cache := cache, gets := 2, logins := 1 }
      else
        -- allowed error status: fall through, `return data`
        { result := .ok data0, cache := cache, gets := 2, logins := 1 }

/-- Network part of `_fetch_data` (the body of the `try` block,
connector.py lines 1443-1481). -/
def fetchNetwork {α : Type} (now : ℤ) (allowEmpty allowHttpError : Bool)
    (allowedErrors : Option (List Nat)) (url : String)
    (cache : PyDict (Option α × ℤ)) (data0 : Option α)
    (responses : List (NetResponse α)) : FetchOut α :=
  match responses.headD .netFail with
  | .netFail => { result := .error .retrieval, cache := cache, gets := 1, logins := 0 }
  | .http status body =>
      if status = 200 ∨ status = 207 then
        match body with
        | .ok d =>
            { result := .ok d, cache := dset url (d, now) cache, gets := 1, logins := 0 }
        | .error _ =>
            if allowEmpty then
              { result := .ok none, cache := cache, gets := 1, logins := 0 }
            else
              { result := .error .retrieval, cache := cache, gets := 1, logins := 0 }
      else if status = 204 ∧ allowEmpty then
        { result := .ok none, cache := cache, gets := 1, logins := 0 }
      else if status = 429 then
        { result := .error .tooManyRequests, cache := cache, gets := 1, logins := 0 }
      else if status = 401 then
        -- `session.login()` then one retried GET
        fetchRetryAfter401 now allowEmpty allowHttpError allowedErrors url cache data0
          ((responses.drop 1).headD .netFail)
      else if statusDisallowed allowHttpError allowedErrors status then
        { result := .error .retrieval, cache := cache, gets := 1, logins := 0 }
      else
        { result := .ok data0, cache := cache, gets := 1, logins := 0 }

/-- `_fetch_data(url, session, no_cache, allow_empty, allow_http_error,
allowed_errors)`.  `maxAge` is `self.active_config['max_age']`; `now` is
`datetime.utcnow()`; cache timestamps are the stored `cached_at` values.
`session.cache` is taken to be present (a dict, possibly empty): its only
other state in the source is `None`, which behaves like an always-missing,
never-updated cache. -/
def fetch_data {α : Type} (maxAge : Option ℤ) (now : ℤ)
    (noCache allowEmpty allowHttpError : Bool) (allowedErrors : Option (List Nat))
    (url : String) (cache : PyDict (Option α × ℤ))
    (responses : List (NetResponse α)) : FetchOut α :=
  let cached : Option (Option α × ℤ) :=
    if !noCache && maxAge.isSome && (dget url cache).isSome then dget url cache else none
  let data0 : Option α := match cached with | some (d, _) => d | none => none
  let cacheDate : Option ℤ := cached.map Prod.snd
  let stale : Bool :=
    match cacheDate, maxAge with
    | some cd, some m => decide (cd < now - m)
    | _, _ => false
  if data0.isNone || maxAge.isNone || stale then
    fetchNetwork now allowEmpty allowHttpError allowedErrors url cache data0 responses
  else
    { result := .ok data0, cache := cache, gets := 0, logins := 0 }

/-! ## Charging enums and the fetch_charging field parsers (C2)

Enums from charging.py.  The REST fetch path (`Connector.fetch_charging`,
connector.py lines 446-601) matches payload strings against
`[item.name for item in Enum]` and indexes `Enum[name]`, i.e. it works on
member *names*. -/

inductive SkodaChargingState where
  | OFF | CONNECT_CABLE | READY_FOR_CHARGING | NOT_READY_FOR_CHARGING
  | CONSERVING | CHARGE_PURPOSE_REACHED_NOT_CONSERVATION_CHARGING
  | CHARGE_PURPOSE_REACHED_CONSERVATION | CHARGING | ERROR | UNSUPPORTED
  | DISCHARGING | UNKNOWN
  deriving DecidableEq, Repr

def skodaChargingStateNames : List String :=
  ["OFF", "CONNECT_CABLE", "READY_FOR_CHARGING", "NOT_READY_FOR_CHARGING",
   "CONSERVING", "CHARGE_PURPOSE_REACHED_NOT_CONSERVATION_CHARGING",
   "CHARGE_PURPOSE_REACHED_CONSERVATION", "CHARGING", "ERROR", "UNSUPPORTED",
   "DISCHARGING", "UNKNOWN"]

/-- `SkodaCharging.SkodaChargingState[name]`; only evaluated behind the
membership guard, the default arm is unreachable there. -/
def skodaChargingStateOfName (s : String) : SkodaChargingState :=
  if s = "OFF" then .OFF
  else if s = "CONNECT_CABLE" then .CONNECT_CABLE
  else if s = "READY_FOR_CHARGING" then .READY_FOR_CHARGING
  else if s = "NOT_READY_FOR_CHARGING" then .NOT_READY_FOR_CHARGING
  else if s = "CONSERVING" then .CONSERVING
  else if s = "CHARGE_PURPOSE_REACHED_NOT_CONSERVATION_CHARGING" then
    .CHARGE_PURPOSE_REACHED_NOT_CONSERVATION_CHARGING
  else if s = "CHARGE_PURPOSE_REACHED_CONSERVATION" then .CHARGE_PURPOSE_REACHED_CONSERVATION
  else if s = "CHARGING" then .CHARGING
  else if s = "ERROR" then .ERROR
  else if s = "UNSUPPORTED" then .UNSUPPORTED
  else if s = "DISCHARGING" then .DISCHARGING
  else .UNKNOWN

/-- The generic `Charging.ChargingState` of the shared model (external
`carconnectivity` library; constructors as used by this connector). -/
inductive ChargingState where
  | OFF | READY_FOR_CHARGING | CONSERVATION | CHARGING | ERROR
  | UNSUPPORTED | DISCHARGING | UNKNOWN
  deriving DecidableEq, Repr

/-- `mapping_skoda_charging_state` (charging.py, lines 124-137). -/
def mappingSkodaChargingState : SkodaChargingState → ChargingState
  | .OFF => .OFF
  | .CONNECT_CABLE => .OFF
  | .READY_FOR_CHARGING => .READY_FOR_CHARGING
  | .NOT_READY_FOR_CHARGING => .OFF
  | .CONSERVING => .CONSERVATION
  | .CHARGE_PURPOSE_REACHED_NOT_CONSERVATION_CHARGING => .READY_FOR_CHARGING
  | .CHARGE_PURPOSE_REACHED_CONSERVATION => .CONSERVATION
  | .CHARGING => .CHARGING
  | .ERROR => .ERROR
  | .UNSUPPORTED => .UNSUPPORTED
  | .DISCHARGING => .DISCHARGING
  | .UNKNOWN => .UNKNOWN

/-- `status.state` parsing in `fetch_charging` (connector.py lines 446-456). -/
def parseChargingStateField (s : String) : ChargingState :=
  if s ∈ skodaChargingStateNames then
    mappingSkodaChargingState (skodaChargingStateOfName s)
  else
    ChargingState.UNKNOWN

inductive SkodaChargeMode where
  | HOME_STORAGE_CHARGING | IMMEDIATE_DISCHARGING | ONLY_OWN_CURRENT
  | PREFERRED_CHARGING_TIMES | TIMER_CHARGING_WITH_CLIMATISATION
  | TIMER | MANUAL | OFF | UNKNOWN
  deriving DecidableEq, Repr

def skodaChargeModeNames : List String :=
  ["HOME_STORAGE_CHARGING", "IMMEDIATE_DISCHARGING", "ONLY_OWN_CURRENT",
   "PREFERRED_CHARGING_TIMES", "TIMER_CHARGING_WITH_CLIMATISATION",
   "TIMER", "MANUAL", "OFF", "UNKNOWN"]

def skodaChargeModeOfName (s : String) : SkodaChargeMode :=
  if s = "HOME_STORAGE_CHARGING" then .HOME_STORAGE_CHARGING
  else if s = "IMMEDIATE_DISCHARGING" then .IMMEDIATE_DISCHARGING
  else if s = "ONLY_OWN_CURRENT" then .ONLY_OWN_CURRENT
  else if s = "PREFERRED_CHARGING_TIMES" then .PREFERRED_CHARGING_TIMES
  else if s = "TIMER_CHARGING_WITH_CLIMATISATION" then .TIMER_CHARGING_WITH_CLIMATISATION
  else if s = "TIMER" then .TIMER
  else if s = "MANUAL" then .MANUAL
  else if s = "OFF" then .OFF
  else .UNKNOWN

/-- `settings.preferredChargeMode` parsing (connector.py lines 549-556). -/
def parsePreferredChargeMode (s : String) : SkodaChargeMode :=
  if s ∈ skodaChargeModeNames then skodaChargeModeOfName s
  else SkodaChargeMode.UNKNOWN

/-- Outcome of looking a payload string up in the generic
`Charging.ChargingType` enum of the external `carconnectivity` library:
either the member of that name, or its `UNKNOWN` sentinel. -/
inductive ChargingTypeResult where
  | member (name : String)
  | UNKNOWN
  deriving DecidableEq, Repr

/-- `status.chargeType` parsing (connector.py lines 477-484):
`if value in [item.name for item in Charging.ChargingType]` indexes the
enum by name, `else` falls back to `Charging.ChargingType.UNKNOWN` — the
same guard shape as the other enum fields.  `Charging.ChargingType` is
defined in the external `carconnectivity` library, so its member-name list
is a parameter here; the fallback is taken exactly when the value is
outside that list, whatever the list is.  (The member name `"UNKNOWN"`
itself goes through the member branch in the source and denotes the same
sentinel; the model keeps the two branches apart.) -/
def parseChargeTypeField (chargingTypeNames : List String) (s : String) :
    ChargingTypeResult :=
  if s ∈ chargingTypeNames then ChargingTypeResult.member s
  else ChargingTypeResult.UNKNOWN

inductive SkodaChargingCareMode where
  | ACTIVATED | DEACTIVATED | UNKNOWN
  deriving DecidableEq, Repr

/-- `settings.chargingCareMode` parsing (connector.py lines 574-581). -/
def parseChargingCareMode (s : String) : SkodaChargingCareMode :=
  if s = "ACTIVATED" then .ACTIVATED
  else if s = "DEACTIVATED" then .DEACTIVATED
  else if s = "UNKNOWN" then .UNKNOWN
  else SkodaChargingCareMode.UNKNOWN

inductive SkodaBatterySupport where
  | ENABLED | DISABLED | NOT_ALLOWED | UNKNOWN
  deriving DecidableEq, Repr

/-- `settings.batterySupport` parsing (connector.py lines 588-595). -/
def parseBatterySupport (s : String) : SkodaBatterySupport :=
  if s = "ENABLED" then .ENABLED
  else if s = "DISABLED" then .DISABLED
  else if s = "NOT_ALLOWED" then .NOT_ALLOWED
  else if s = "UNKNOWN" then .UNKNOWN
  else SkodaBatterySupport.UNKNOWN

/-- `settings.maxChargeCurrentAc` handling (connector.py lines 529-535):
the value stored into the `maximum_current` attribute.  `MAXIMUM` stores
16, `REDUCED` stores 6, anything else logs and stores `None`. -/
def maxChargeCurrentAcValue (s : String) : Option ℚ :=
  if s = "MAXIMUM" then some 16
  else if s = "REDUCED" then some 6
  else none

/-- `settings.autoUnlockPlugWhenCharged` handling (connector.py lines
541-548): `ON`/`PERMANENT` store `True`, `OFF` stores `False`, anything
else logs and stores `None`. -/
def autoUnlockPlugValue (s : String) : Option Bool :=
  if s = "ON" ∨ s = "PERMANENT" then some true
  else if s = "OFF" then some false
  else none

/-! ## Vehicle subtype promotion (C8)

`SkodaVehicle.__init__` copy-constructor branch (vehicle.py, lines 34-66)
as invoked from `Connector.fetch_driving_range` (connector.py, lines
1245-1269).  Python object identity is modelled with a small heap: the
capabilities object and the boolean attributes live in stores keyed by
object id, and a vehicle holds references.  The origin branch assigns the
*same* objects (`self.capabilities = origin.capabilities`, etc.) and then
re-points their `parent` at the new vehicle. -/

structure CapabilitiesObj where
  parent : Nat
  capabilityIds : List String
  deriving DecidableEq, Repr

structure BoolAttrObj where
  parent : Nat
  enabled : Bool
  value : Option Bool
  deriving DecidableEq, Repr

inductive Powertrain where
  | generic | electric | combustion | hybrid
  deriving DecidableEq, Repr

structure VehicleObj where
  oid : Nat
  vin : String
  powertrain : Powertrain
  capabilitiesRef : Nat
  inMotionRef : Nat
  ignitionOnRef : Nat
  lastMeasurement : Option ℤ
  deriving DecidableEq, Repr

structure ObjStore where
  caps : List (Nat × CapabilitiesObj)
  boolAttrs : List (Nat × BoolAttrObj)
  deriving Repr

def lookupRef {β : Type} (r : Nat) : List (Nat × β) → Option β
  | [] => none
  | (r', o) :: rest => if r' = r then some o else lookupRef r rest

def updateRef {β : Type} (r : Nat) (f : β → β) : List (Nat × β) → List (Nat × β)
  | [] => []
  | (r', o) :: rest => if r' = r then (r, f o) :: rest else (r', o) :: updateRef r f rest

/-- `SkodaVehicle.__init__(garage=..., origin=origin)` for a new object id
`newOid` and target subtype `target`: carries over the capabilities,
in-motion and ignition-on objects by reference and re-parents them, and
copies the scalar fields. -/
def promoteVehicle (target : Powertrain) (newOid : Nat) (origin : VehicleObj)
    (store : ObjStore) : VehicleObj × ObjStore :=
  let vehicle : VehicleObj :=
    { oid := newOid
      vin := origin.vin
      powertrain := target
      capabilitiesRef := origin.capabilitiesRef
      inMotionRef := origin.inMotionRef
      ignitionOnRef := origin.ignitionOnRef
      lastMeasurement := origin.lastMeasurement }
  let store' : ObjStore :=
    { caps := updateRef origin.capabilitiesRef (fun c => { c with parent := newOid }) store.caps
      boolAttrs :=
        updateRef origin.ignitionOnRef (fun a => { a with parent := newOid })
          (updateRef origin.inMotionRef (fun a => { a with parent := newOid }) store.boolAttrs) }
  (vehicle, store')

/-! ## The MQTT message callback (C1)

`SkodaMQTTClient._on_message_callback` (mqtt_client.py, lines 438-671).
Decoded JSON values and the exceptions the CPython operations on them can
raise are modelled explicitly; `json.loads` is modelled by the message
carrying its parse outcome.  Logging calls have no observable effect in
the model and are omitted, except where a log call's own argument
expression (`data['name']`) can raise, which is kept as the corresponding
dictionary access.  The triggered re-fetches are emitted as effects; the
`CarConnectivityError`s they can raise are caught by the surrounding
`try`/`except` blocks in the source and never escape, so they do not
appear as errors here. -/

inductive PyVal where
  | null
  | bool (b : Bool)
  | int (n : ℤ)
  | float (q : ℚ)
  | str (s : String)
  | list (xs : List PyVal)
  | dict (entries : List (String × PyVal))

inductive PyErr where
  | jsonDecodeError
  | keyError (k : String)
  | typeError
  | valueError
  | attributeError
  | timeParseError
  deriving DecidableEq, Repr

def PyVal.isNull : PyVal → Bool
  | .null => true
  | _ => false

/-- Python `v == s` for a string literal `s`. -/
def pyEqStr (v : PyVal) (s : String) : Bool :=
  match v with
  | .str s' => s' = s
  | _ => false

/-- Python `k in v`: key membership for dicts, substring for strings,
element membership for lists, `TypeError` otherwise. -/
def pyIn (k : String) : PyVal → Except PyErr Bool
  | .dict es => .ok ((dget k es).isSome)
  | .str s => .ok (strContains k s)
  | .list xs => .ok (xs.any (fun v => pyEqStr v k))
  | _ => .error .typeError

/-- Python `v[k]` for a string key: dict lookup (`KeyError` when absent),
`TypeError` for any other type. -/
def pyGetItem (k : String) : PyVal → Except PyErr PyVal
  | .dict es =>
      match dget k es with
      | some v => .ok v
      | none => .error (.keyError k)
  | _ => .error .typeError

/-- Python `int(s)` on a string. -/
def strToIntPy (s : String) : Except PyErr ℤ :=
  let t := s.trim
  let sign : ℤ := if t.startsWith "-" then -1 else 1
  let digits := if t.startsWith "-" ∨ t.startsWith "+" then t.drop 1 else t
  if digits ≠ "" ∧ digits.toList.all Char.isDigit then
    .ok (sign * (digits.toList.foldl (fun n c => n * 10 + ((c.toNat : ℤ) - 48)) (0 : ℤ)))
  else
    .error .valueError

/-- Python `int(v)`: ints and bools convert, floats truncate, strings
parse (`ValueError` on junk), everything else is a `TypeError`. -/
def pyToInt : PyVal → Except PyErr ℤ
  | .int n => .ok n
  | .bool b => .ok (if b then 1 else 0)
  | .float q => .ok (if 0 ≤ q then ⌊q⌋ else -⌊-q⌋)
  | .str s => strToIntPy s
  | _ => .error .typeError

/-- Value containment in an `Enum` class (`x in SomeEnum`, Python ≥ 3.12):
looks the value up in the value-to-member map, so unhashable values raise
`TypeError` and hashable non-members answer `False`. -/
def enumValueContains (values : List String) : PyVal → Except PyErr Bool
  | .str s => .ok (s ∈ values)
  | .list _ => .error .typeError
  | .dict _ => .error .typeError
  | _ => .ok false

/-- The `.value` strings of `SkodaCharging.SkodaChargingState`
(charging.py lines 68-79); the service-event path matches on values. -/
def skodaChargingStateValues : List String :=
  ["off", "connectCable", "readyForCharging", "notReadyForCharging", "conserving",
   "chargePurposeReachedAndNotConservationCharging", "chargePurposeReachedAndConservation",
   "charging", "error", "unsupported", "discharging", "unknown charging state"]

/-- `SkodaCharging.SkodaChargingState(value)`; only evaluated behind the
membership guard. -/
def skodaChargingStateOfValue (s : String) : SkodaChargingState :=
  if s = "off" then .OFF
  else if s = "connectCable" then .CONNECT_CABLE
  else if s = "readyForCharging" then .READY_FOR_CHARGING
  else if s = "notReadyForCharging" then .NOT_READY_FOR_CHARGING
  else if s = "conserving" then .CONSERVING
  else if s = "chargePurposeReachedAndNotConservationCharging" then
    .CHARGE_PURPOSE_REACHED_NOT_CONSERVATION_CHARGING
  else if s = "chargePurposeReachedAndConservation" then .CHARGE_PURPOSE_REACHED_CONSERVATION
  else if s = "charging" then .CHARGING
  else if s = "error" then .ERROR
  else if s = "unsupported" then .UNSUPPORTED
  else if s = "discharging" then .DISCHARGING
  else .UNKNOWN

/-- The `.value` strings of `SkodaCharging.SkodaChargeMode`
(charging.py lines 95-103). -/
def skodaChargeModeValues : List String :=
  ["HOME_STORAGE_CHARGING", "IMMEDIATE_DISCHARGING", "ONLY_OWN_CURRENT",
   "PREFERRED_CHARGING_TIMES", "TIMER_CHARGING_WITH_CLIMATISATION",
   "timer", "manual", "off", "unknown charge mode"]

/-- Topic character classes of the two `re.match` patterns
(mqtt_client.py lines 461 and 619). -/
def isHexDashChar (c : Char) : Bool :=
  c.isDigit || ('a' ≤ c && c ≤ 'f') || ('A' ≤ c && c ≤ 'F') || c = '-'

def isVinChar (c : Char) : Bool :=
  ('A' ≤ c && c ≤ 'Z') || c.isDigit

def isEventChar (c : Char) : Bool :=
  c.isAlpha || c.isDigit || c = '-' || c = '_' || c = '/'

/-- Split a character list at every `/` (the behaviour of
`topic.split('/')` on the topic strings at hand). -/
def splitSlashAux : List Char → List Char → List (List Char)
  | [], acc => [acc.reverse]
  | c :: rest, acc =>
      if c = '/' then acc.reverse :: splitSlashAux rest []
      else splitSlashAux rest (c :: acc)

def splitSlash (s : String) : List String :=
  (splitSlashAux s.toList []).map String.mk

def joinSlash : List String → String
  | [] => ""
  | [s] => s
  | s :: rest => s ++ "/" ++ joinSlash rest

/-- `re.match(r'^(user_id)/(vin)/{category}/(event)$', topic)`.  The first
two character classes exclude `/`, so the split on `/` is the unique
decomposition the regex can take. -/
def matchEventTopic (category : String) (topic : String) :
    Option (String × String × String) :=
  match splitSlash topic with
  | userId :: vin :: cat :: rest =>
      let event := joinSlash rest
      if cat = category ∧
         userId ≠ "" ∧ userId.toList.all isHexDashChar ∧
         vin ≠ "" ∧ vin.toList.all isVinChar ∧
         event ≠ "" ∧ event.toList.all isEventChar then
        some (userId, vin, event)
      else none
  | _ => none

/-- `vehicle.charging` as seen by the callback. -/
structure ChargingView where
  stateValue : Option ChargingState
  settingsIsSkoda : Bool

/-- The slice of a garage vehicle the callback inspects. -/
structure VehicleView where
  isSkodaVehicle : Bool
  isSkodaElectric : Bool
  hasElectricDrive : Bool
  charging : Option ChargingView
  climatizationPresent : Bool

structure MqttEnv where
  garage : String → Option VehicleView
  /-- `robust_time_parse` (external util); raises on malformed input. -/
  parseTime : String → Except PyErr ℤ
  now : ℤ
  /-- VINs with a pending entry in `delayed_access_function_timers`. -/
  pendingTimers : List String

/-- Observable actions of the callback on the rest of the system. -/
inductive Eff where
  | setField (field : String)
  | fetchCharging (vin : String)
  | fetchAirConditioning (vin : String)
  | fetchVehicleStatus (vin : String)
  | fetchPosition (vin : String)
  | transactionEnd
  | cancelAccessTimer (vin : String)
  | startAccessTimer (vin : String)
  deriving DecidableEq, Repr

/-- `service-event/charging` branch (mqtt_client.py lines 472-537). -/
def serviceCharging (env : MqttEnv) (vin : String) (data : PyVal) :
    Except PyErr (List Eff) := do
  let mut effs : List Eff := []
  -- line 473: `if 'name' in data and data['name'] == 'change-charge-mode'
  --            or data['name'] == 'change-soc':` — Python precedence groups
  -- the `and` first, so a missing 'name' key still evaluates `data['name']`.
  let hasName ← pyIn "name" data
  let cond ← do
    if hasName then
      let nv ← pyGetItem "name" data
      if pyEqStr nv "change-charge-mode" then pure true
      else do
        let nv2 ← pyGetItem "name" data
        pure (pyEqStr nv2 "change-soc")
    else do
      let nv2 ← pyGetItem "name" data
      pure (pyEqStr nv2 "change-soc")
  if cond then
    let hasData ← pyIn "data" data
    if hasData then
      let dv ← pyGetItem "data" data
      if ¬ dv.isNull then
        match env.garage vin with
        | some v =>
            if v.isSkodaElectric then
              -- lines 477-532
              if v.hasElectricDrive then
                -- line 479: `vehicle.charging.state.value`
                let chView ← match v.charging with
                  | some c => pure c
                  | none => throw PyErr.attributeError
                let mut chargingState : Option ChargingState := chView.stateValue
                -- lines 481-489: mode
                let hasMode ← pyIn "mode" dv
                if hasMode then
                  let mv ← pyGetItem "mode" dv
                  if ¬ mv.isNull ∧ chView.settingsIsSkoda then
                    let _known ← enumValueContains skodaChargeModeValues mv
                    -- (the unknown-mode arm assigns `Charging.ChargingState.UNKNOWN`
                    --  as the mode — a quirk of line 487, value-irrelevant here)
                    effs := effs ++ [.setField "charging.settings.preferred_charge_mode"]
                -- lines 490-505: state
                let hasState ← pyIn "state" dv
                if hasState then
                  let sv ← pyGetItem "state" dv
                  if ¬ sv.isNull then
                    let newState : ChargingState :=
                      match sv with
                      | .str s =>
                          if s ∈ skodaChargingStateValues then
                            mappingSkodaChargingState (skodaChargingStateOfValue s)
                          else ChargingState.UNKNOWN
                      | _ => ChargingState.UNKNOWN
                    effs := effs ++ [.setField "charging.state"]
                    if newState = ChargingState.OFF then
                      effs := effs ++ [.setField "charging.type",
                                       .setField "charging.rate",
                                       .setField "charging.power"]
                    chargingState := some newState
                -- lines 506-509: soc; `int(...)` on a junk string propagates
                let hasSoc ← pyIn "soc" dv
                if hasSoc then
                  let socv ← pyGetItem "soc" dv
                  if ¬ socv.isNull then
                    match socv with
                    | .str s => let _ ← strToIntPy s
                    | _ => pure ()
                    effs := effs ++ [.setField "drive.level"]
                -- lines 510-512: chargedRange
                let hasCr ← pyIn "chargedRange" dv
                if hasCr then
                  let crv ← pyGetItem "chargedRange" dv
                  if ¬ crv.isNull then
                    effs := effs ++ [.setField "drive.range"]
                -- lines 513-519: refetch only on an actual state transition
                if chView.stateValue ≠ chargingState then
                  effs := effs ++ [.fetchCharging vin, .transactionEnd]
              -- lines 520-529: timeToFinish (sibling of the drive block)
              let hasTtf ← pyIn "timeToFinish" dv
              if hasTtf then
                let ttf ← pyGetItem "timeToFinish" dv
                if ¬ ttf.isNull ∧ (v.charging).isSome then
                  -- `try: ... int(...) ... except ValueError:` — only
                  -- ValueError is caught; TypeError propagates
                  match pyToInt ttf with
                  | .ok _ => pure ()
                  | .error .valueError => pure ()
                  | .error e => throw e
                  effs := effs ++ [.setField "charging.estimated_date_reached"]
              -- lines 530-532
              return effs
            else
              pure () -- line 534, falls through to line 535
        | none => pure ()
  -- lines 535-537: the log call evaluates `data['name']`
  let _ ← pyGetItem "name" data
  return effs

/-- `service-event/air-conditioning` branch (mqtt_client.py lines 538-558). -/
def serviceAirConditioning (env : MqttEnv) (vin : String) (data : PyVal) :
    Except PyErr (List Eff) := do
  let mut effs : List Eff := []
  let hasName ← pyIn "name" data
  let isChangeRemaining ← do
    if hasName then
      let nv ← pyGetItem "name" data
      pure (pyEqStr nv "change-remaining-time")
    else pure false
  if isChangeRemaining then
    let hasData ← pyIn "data" data
    if hasData then
      let dv ← pyGetItem "data" data
      if ¬ dv.isNull then
        match env.garage vin with
        | some v =>
            if v.isSkodaVehicle then
              effs := [.fetchAirConditioning vin, .transactionEnd]
        | none => pure ()
  else
    let isCompleted ← do
      if hasName then
        let nv ← pyGetItem "name" data
        pure (pyEqStr nv "climatisation-completed")
      else pure false
    if isCompleted then
      let hasData ← pyIn "data" data
      if hasData then
        let dv ← pyGetItem "data" data
        if ¬ dv.isNull then
          match env.garage vin with
          | some v =>
              if v.climatizationPresent then
                effs := [.setField "climatization.state",
                         .setField "climatization.estimated_date_reached"]
          | none => pure ()
  -- line 556: the log call evaluates `data['name']`
  let _ ← pyGetItem "name" data
  return effs

/-- `service-event/vehicle-status/access` branch (mqtt_client.py lines
559-601): cancels the pending per-VIN timer, if any, and starts a fresh
2-second one. -/
def serviceAccess (env : MqttEnv) (vin : String) (data : PyVal) :
    Except PyErr (List Eff) := do
  let mut effs : List Eff := []
  let hasName ← pyIn "name" data
  let isChangeAccess ← do
    if hasName then
      let nv ← pyGetItem "name" data
      pure (pyEqStr nv "change-access")
    else pure false
  if isChangeAccess then
    let hasData ← pyIn "data" data
    if hasData then
      let dv ← pyGetItem "data" data
      if ¬ dv.isNull then
        match env.garage vin with
        | some v =>
            if v.isSkodaVehicle then
              if vin ∈ env.pendingTimers then
                effs := effs ++ [.cancelAccessTimer vin]
              effs := effs ++ [.startAccessTimer vin]
        | none => pure ()
  -- line 599: the log call evaluates `data['name']`
  let _ ← pyGetItem "name" data
  return effs

/-- `service-event/vehicle-status/lights` branch (mqtt_client.py lines
602-615). -/
def serviceLights (env : MqttEnv) (vin : String) (data : PyVal) :
    Except PyErr (List Eff) := do
  let mut effs : List Eff := []
  let hasName ← pyIn "name" data
  let isChangeLights ← do
    if hasName then
      let nv ← pyGetItem "name" data
      pure (pyEqStr nv "change-lights")
    else pure false
  if isChangeLights then
    let hasData ← pyIn "data" data
    if hasData then
      let dv ← pyGetItem "data" data
      if ¬ dv.isNull then
        match env.garage vin with
        | some v =>
            if v.isSkodaVehicle then
              effs := [.fetchVehicleStatus vin, .transactionEnd]
        | none => pure ()
  -- line 613: the log call evaluates `data['name']`
  let _ ← pyGetItem "name" data
  return effs

/-- Operation-request topics routed to an air-conditioning re-fetch
(mqtt_client.py lines 627-634). -/
def acOperationRequests : List String :=
  ["air-conditioning/set-air-conditioning-at-unlock",
   "air-conditioning/set-air-conditioning-seats-heating",
   "air-conditioning/set-air-conditioning-timers",
   "air-conditioning/set-air-conditioning-without-external-power",
   "air-conditioning/set-target-temperature",
   "air-conditioning/start-stop-air-conditioning",
   "air-conditioning/start-stop-window-heating",
   "air-conditioning/windows-heating"]

/-- Operation-request topics routed to a charging re-fetch
(mqtt_client.py lines 648-655). -/
def chargingOperationRequests : List String :=
  ["charging/start-stop-charging",
   "charging/update-battery-support",
   "charging/update-auto-unlock-plug",
   "charging/update-care-mode",
   "charging/update-charge-limit",
   "charging/update-charge-mode",
   "charging/update-charging-profiles",
   "charging/update-charging-current"]

/-- Operation-request handling (mqtt_client.py lines 625-670), entered
with a non-null decoded payload. -/
def operationRequest (env : MqttEnv) (vin operationReq : String) (data : PyVal) :
    Except PyErr (List Eff) := do
  let vehicle := env.garage vin
  if operationReq ∈ acOperationRequests then
    match vehicle with
    | some v =>
        if v.isSkodaVehicle then
          let hasStatus ← pyIn "status" data
          if hasStatus then
            let sv ← pyGetItem "status" data
            if ¬ sv.isNull then
              if pyEqStr sv "COMPLETED_SUCCESS" then
                return [.fetchAirConditioning vin, .transactionEnd]
              else if pyEqStr sv "IN_PROGRESS" then
                return []
    | none => pure ()
  else if operationReq ∈ chargingOperationRequests then
    match vehicle with
    | some v =>
        if v.isSkodaElectric then
          let hasStatus ← pyIn "status" data
          if hasStatus then
            let sv ← pyGetItem "status" data
            if ¬ sv.isNull then
              if pyEqStr sv "COMPLETED_SUCCESS" then
                return [.fetchCharging vin, .transactionEnd]
              else if pyEqStr sv "IN_PROGRESS" then
                return []
    | none => pure ()
  -- line 669: unknown operation request, logged and dropped
  return []

/-- An incoming message: its topic, whether `len(msg.payload) == 0`, and
the outcome of `json.loads(msg.payload)`. -/
structure MqttMessage where
  topic : String
  payloadIsEmpty : Bool
  payloadJson : Except PyErr PyVal

/-- `_on_message_callback` (mqtt_client.py lines 438-671). -/
def onMessageCallback (env : MqttEnv) (msg : MqttMessage) :
    Except PyErr (List Eff) := do
  -- lines 456-458: empty payloads are ignored
  if msg.payloadIsEmpty then
    return []
  match matchEventTopic "service-event" msg.topic with
  | some (_userId, vin, serviceEvent) =>
      -- line 466: `json.loads(msg.payload)` — unguarded
      let data ← msg.payloadJson
      if ¬ data.isNull then
        -- lines 468-471: measured_at
        let hasTs ← pyIn "timestamp" data
        let _measuredAt ← do
          if hasTs then
            let tv ← pyGetItem "timestamp" data
            if ¬ tv.isNull then
              match tv with
              | .str s => env.parseTime s
              | _ => throw PyErr.typeError
            else pure env.now
          else pure env.now
        if serviceEvent = "charging" then
          serviceCharging env vin data
        else if serviceEvent = "air-conditioning" then
          serviceAirConditioning env vin data
        else if serviceEvent = "vehicle-status/access" then
          serviceAccess env vin data
        else if serviceEvent = "vehicle-status/lights" then
          serviceLights env vin data
        else
          return [] -- line 616: unknown service event, logged and dropped
      else
        return [] -- `data is None`: falls to line 616 and returns
  | none =>
    match matchEventTopic "operation-request" msg.topic with
    | some (_userId, vin, operationReq) =>
        -- line 624: `json.loads(msg.payload)` — unguarded
        let data ← msg.payloadJson
        if ¬ data.isNull then
          operationRequest env vin operationReq data
        else
          return [] -- falls past the `if match:` block to line 671
    | none =>
        return [] -- line 671: message not understood, logged and dropped

/-! # Theorems -/

/-! ## C9: unsubscribing a vehicle with live subscriptions -/

theorem unsubscribeLoop_dirty (vin : String) (topics : List String) :
    unsubscribeLoop vin topics true = .error .setChangedSize := by
  cases topics <;> simp [unsubscribeLoop]

theorem unsubscribeLoop_error_iff (vin : String) (topics : List String) :
    unsubscribeLoop vin topics false = .error .setChangedSize ↔
      topics.any (fun t => strContains vin t) = true := by
  induction topics with
  | nil => simp [unsubscribeLoop]
  | cons t rest ih =>
      simp only [unsubscribeLoop, List.any_cons]
      by_cases h : strContains vin t
      · simp [h, unsubscribeLoop_dirty]
      · simp only [h, if_neg, Bool.false_or]
        cases hrec : unsubscribeLoop vin rest false with
        | ok kept => simp [hrec] at ih ⊢; exact ih
        | error e => simp [hrec] at ih ⊢; exact ih

/-- Claim C9: calling `_unsubscribe_vehicle` for a vehicle whose VIN occurs
in at least one currently subscribed topic raises a `RuntimeError`, because
the method removes elements from the `subscribed_topics` set while
iterating over that same set; it completes without error exactly when no
subscribed topic contains the vehicle's VIN. -/
theorem unsubscribe_vehicle_runtime_error (vin : String) (topics : List String) :
    unsubscribeVehicle vin topics = .error .setChangedSize ↔
      ∃ t ∈ topics, strContains vin t = true := by
  rw [unsubscribeVehicle, unsubscribeLoop_error_iff, List.any_eq_true]

/-! ## C10: the maximum-current setter quantizes to REDUCED/6 or MAXIMUM/16 -/

/-- Claim C10: for every requested maximum charging current, the setter
sends exactly one of `"REDUCED"` (returning 6.0) or `"MAXIMUM"` (returning
16.0), chosen by whether the precision-quantized request is below 16; no
other current value is ever sent or returned.  The precision hypothesis
excludes a zero attribute precision, where the Python code would raise
`ZeroDivisionError` instead of sending anything. -/
theorem maximum_current_quantizes (precision : Option ℚ) (mc : ℚ) (status : Nat)
    (_hp : precision.getD 1 ≠ 0) :
    (quantize mc (precision.getD 1) < 16 →
        (onChargingMaximumCurrentChange precision mc status).1 = "REDUCED" ∧
        (onChargingMaximumCurrentChange precision mc status).2 =
          (if status = 202 then .ok (6 : ℚ) else .error ())) ∧
    (¬ quantize mc (precision.getD 1) < 16 →
        (onChargingMaximumCurrentChange precision mc status).1 = "MAXIMUM" ∧
        (onChargingMaximumCurrentChange precision mc status).2 =
          (if status = 202 then .ok (16 : ℚ) else .error ())) ∧
    (((onChargingMaximumCurrentChange precision mc status).1 = "REDUCED" ∧
        ∀ v, (onChargingMaximumCurrentChange precision mc status).2 = .ok v → v = 6) ∨
     ((onChargingMaximumCurrentChange precision mc status).1 = "MAXIMUM" ∧
        ∀ v, (onChargingMaximumCurrentChange precision mc status).2 = .ok v → v = 16)) := by
  simp only [onChargingMaximumCurrentChange, chargingCurrentRequest]
  by_cases h : quantize mc (precision.getD 1) < 16
  · simp only [if_pos h]
    refine ⟨fun _ => ⟨trivial, trivial⟩, fun hc => absurd h hc, Or.inl ⟨trivial, ?_⟩⟩
    intro v hv
    by_cases hs : status = 202 <;> simp [hs] at hv
    exact hv.symm
  · simp only [if_neg h]
    refine ⟨fun hc => absurd hc h, fun _ => ⟨trivial, trivial⟩, Or.inr ⟨trivial, ?_⟩⟩
    intro v hv
    by_cases hs : status = 202 <;> simp [hs] at hv
    exact hv.symm

theorem maximum_current_quantizes_witness :
    ((none : Option ℚ).getD 1 ≠ 0) ∧
    (quantize 7 ((none : Option ℚ).getD 1) < 16 →
        (onChargingMaximumCurrentChange none 7 202).1 = "REDUCED" ∧
        (onChargingMaximumCurrentChange none 7 202).2 =
          (if 202 = 202 then .ok (6 : ℚ) else .error ())) ∧
    (¬ quantize 7 ((none : Option ℚ).getD 1) < 16 →
        (onChargingMaximumCurrentChange none 7 202).1 = "MAXIMUM" ∧
        (onChargingMaximumCurrentChange none 7 202).2 =
          (if 202 = 202 then .ok (16 : ℚ) else .error ())) ∧
    (((onChargingMaximumCurrentChange none 7 202).1 = "REDUCED" ∧
        ∀ v, (onChargingMaximumCurrentChange none 7 202).2 = .ok v → v = 6) ∨
     ((onChargingMaximumCurrentChange none 7 202).1 = "MAXIMUM" ∧
        ∀ v, (onChargingMaximumCurrentChange none 7 202).2 = .ok v → v = 16)) :=
  ⟨by norm_num, (maximum_current_quantizes none 7 202 (by norm_num)).1,
   (maximum_current_quantizes none 7 202 (by norm_num)).2.1,
   (maximum_current_quantizes none 7 202 (by norm_num)).2.2⟩

/-! ## C4: access-event debounce -/

theorem debounceRun_pending (w t : ℚ) (l : List ℚ)
    (h : List.Chain (fun a b => a ≤ b ∧ b < a + w) t l) :
    debounceRun w l (some (t + w)) = 1 := by
  induction l generalizing t with
  | nil => simp [debounceRun]
  | cons t1 rest ih =>
      cases h with
      | cons hab hchain =>
          simp only [debounceRun]
          rw [if_pos hab.2]
          exact ih t1 hchain

/-- Claim C4: a burst of `N >= 1` access-change events for one VIN in which
each event arrives strictly within the 2-second window after the previous
one triggers `delayed_access_function` — and with it the delayed REST
re-fetch round — exactly once: every event cancels the pending timer and
reschedules it, and only the last timer fires. -/
theorem access_debounce_single_fetch (t0 : ℚ) (rest : List ℚ)
    (h : List.Chain (fun a b => a ≤ b ∧ b < a + accessDebounceWindow) t0 rest) :
    debounceFetchCount (t0 :: rest) = 1 := by
  simp only [debounceFetchCount, debounceRun]
  exact debounceRun_pending accessDebounceWindow t0 rest h

theorem access_debounce_single_fetch_witness :
    List.Chain (fun a b => a ≤ b ∧ b < a + accessDebounceWindow) 0
      [1 / 2, 1, 3 / 2, 2 + 1 / 2] ∧
    debounceFetchCount [0, 1 / 2, 1, 3 / 2, 2 + 1 / 2] = 1 :=
  ⟨by norm_num [accessDebounceWindow],
   access_debounce_single_fetch 0 [1 / 2, 1, 3 / 2, 2 + 1 / 2]
     (by norm_num [accessDebounceWindow])⟩

/-! ## C5: refresh with no refresh token goes straight to login -/

/-- Claim C5: when `refresh_tokens` is called with a configured, secure
token endpoint and no refresh token is present — neither passed as the
argument nor stored on the session — it issues no POST to the token
endpoint: it performs exactly one `login()` and returns the post-login
token bundle. -/
theorem refresh_without_token_logs_in (τ : Type) (tokenUrl : String)
    (postLoginToken : Option τ) (post : PostOutcome τ)
    (hUrl : tokenUrl ≠ "") (hSecure : isSecureTransport tokenUrl = true) :
    refresh_tokens τ tokenUrl none none postLoginToken post =
      { outcome := .ok postLoginToken, posts := 0, logins := 1 } := by
  simp [refresh_tokens, strTruthy, pyOr, hUrl, hSecure]

theorem refresh_without_token_logs_in_witness :
    ("https://mysmob.api.connect.skoda-auto.cz/api/v1/authentication/refresh-token?tokenType=CONNECT" ≠ "") ∧
    isSecureTransport
      "https://mysmob.api.connect.skoda-auto.cz/api/v1/authentication/refresh-token?tokenType=CONNECT" = true ∧
    refresh_tokens Nat
      "https://mysmob.api.connect.skoda-auto.cz/api/v1/authentication/refresh-token?tokenType=CONNECT"
      none none (some 0) .connError =
      { outcome := .ok (some 0), posts := 0, logins := 1 } :=
  ⟨by decide, by decide,
   refresh_without_token_logs_in Nat
     "https://mysmob.api.connect.skoda-auto.cz/api/v1/authentication/refresh-token?tokenType=CONNECT"
     (some 0) .connError (by decide) (by decide)⟩

/-! ## C7: token field normalization -/

theorem dget_eq_none_of_not_mem {V : Type} (k : String) (d : PyDict V)
    (h : k ∉ dkeys d) : dget k d = none := by
  induction d with
  | nil => rfl
  | cons e rest ih =>
      obtain ⟨k', v⟩ := e
      simp only [dkeys, List.map_cons, List.mem_cons] at h
      push_neg at h
      simp [dget, Ne.symm h.1, ih (by simpa [dkeys] using h.2)]

theorem dget_dset_self {V : Type} (k : String) (v : V) (d : PyDict V) :
    dget k (dset k v d) = some v := by
  induction d with
  | nil => simp [dget, dset]
  | cons e rest ih =>
      obtain ⟨k', v'⟩ := e
      by_cases h : k' = k
      · simp [dset, dget, h]
      · simp [dset, dget, h, ih]

theorem dget_dset_ne {V : Type} (k k' : String) (v : V) (d : PyDict V)
    (h : k ≠ k') : dget k (dset k' v d) = dget k d := by
  induction d with
  | nil => simp [dget, dset, Ne.symm h]
  | cons e rest ih =>
      obtain ⟨k0, v0⟩ := e
      by_cases h0 : k0 = k'
      · subst h0
        simp [dset, dget, Ne.symm h]
      · simp [dset, dget, h0, ih]

theorem dget_ddel_ne {V : Type} (k k' : String) (d : PyDict V)
    (h : k ≠ k') : dget k (ddel k' d) = dget k d := by
  induction d with
  | nil => rfl
  | cons e rest ih =>
      obtain ⟨k0, v0⟩ := e
      by_cases h0 : k0 = k'
      · subst h0
        simp [ddel, dget, Ne.symm h]
      · simp [ddel, dget, h0, ih]

theorem dget_ddel_self {V : Type} (k : String) (d : PyDict V)
    (h : (dkeys d).Nodup) : dget k (ddel k d) = none := by
  induction d with
  | nil => rfl
  | cons e rest ih =>
      obtain ⟨k0, v0⟩ := e
      simp only [dkeys, List.map_cons, List.nodup_cons] at h
      by_cases h0 : k0 = k
      · subst h0
        simp only [ddel, if_pos rfl]
        exact dget_eq_none_of_not_mem k0 rest (by simpa [dkeys] using h.1)
      · simp [ddel, dget, h0, ih (by simpa [dkeys] using h.2)]

theorem dkeys_ddel_sublist {V : Type} (k : String) (d : PyDict V) :
    (dkeys (ddel k d)).Sublist (dkeys d) := by
  induction d with
  | nil => simp [ddel, dkeys]
  | cons e rest ih =>
      obtain ⟨k0, v0⟩ := e
      by_cases h0 : k0 = k
      · simp only [ddel, if_pos h0, dkeys, List.map_cons]
        exact List.Sublist.cons k0 (List.Sublist.refl _)
      · simp only [ddel, if_neg h0, dkeys, List.map_cons]
        exact List.Sublist.cons₂ k0 ih

theorem nodup_ddel {V : Type} (k : String) (d : PyDict V)
    (h : (dkeys d).Nodup) : (dkeys (ddel k d)).Nodup :=
  (dkeys_ddel_sublist k d).nodup h

theorem mem_dkeys_dset {V : Type} (a k : String) (v : V) (d : PyDict V) :
    a ∈ dkeys (dset k v d) ↔ a = k ∨ a ∈ dkeys d := by
  induction d with
  | nil => simp [dset, dkeys]
  | cons e rest ih =>
      obtain ⟨k0, v0⟩ := e
      by_cases h0 : k0 = k
      · subst h0
        simp [dset, dkeys]
      · simp only [dset, if_neg h0, dkeys, List.map_cons, List.mem_cons] at ih ⊢
        rw [ih]
        tauto

theorem nodup_dset {V : Type} (k : String) (v : V) (d : PyDict V)
    (h : (dkeys d).Nodup) : (dkeys (dset k v d)).Nodup := by
  induction d with
  | nil => simp [dset, dkeys]
  | cons e rest ih =>
      obtain ⟨k0, v0⟩ := e
      simp only [dkeys, List.map_cons, List.nodup_cons] at h
      by_cases h0 : k0 = k
      · subst h0
        have hk : dkeys (dset k0 v ((k0, v0) :: rest)) = k0 :: dkeys rest := by
          simp [dset, dkeys]
        rw [hk, List.nodup_cons]
        exact ⟨by simpa [dkeys] using h.1, by simpa [dkeys] using h.2⟩
      · simp only [dset, if_neg h0, dkeys, List.map_cons, List.nodup_cons]
        refine ⟨?_, ih h.2⟩
        rw [show (dset k v rest).map Prod.fst = dkeys (dset k v rest) from rfl,
            mem_dkeys_dset]
        rintro (rfl | hm)
        · exact h0 rfl
        · exact h.1 hm

theorem dget_renameKey_other {V : Type} (src dst k : String) (d : PyDict V)
    (hks : k ≠ src) (hkd : k ≠ dst) :
    dget k (renameKey src dst d) = dget k d := by
  unfold renameKey
  cases hs : dget src d with
  | none => rfl
  | some v => rw [dget_dset_ne k dst v _ hkd, dget_ddel_ne k src d hks]

theorem dget_renameKey_src {V : Type} (src dst : String) (d : PyDict V)
    (h : (dkeys d).Nodup) (hne : src ≠ dst) :
    dget src (renameKey src dst d) = none := by
  unfold renameKey
  cases hs : dget src d with
  | none => exact hs
  | some v => rw [dget_dset_ne src dst v _ hne, dget_ddel_self src d h]

theorem dget_renameKey_dst {V : Type} (src dst : String) (d : PyDict V) (v : V)
    (h : dget src d = some v) :
    dget dst (renameKey src dst d) = some v := by
  unfold renameKey
  rw [h, dget_dset_self]

theorem nodup_renameKey {V : Type} (src dst : String) (d : PyDict V)
    (h : (dkeys d).Nodup) : (dkeys (renameKey src dst d)).Nodup := by
  unfold renameKey
  cases hs : dget src d with
  | none => exact h
  | some v => exact nodup_dset dst v _ (nodup_ddel src d h)

/-- Claim C7: for every token-response object (a JSON object, hence with
distinct keys), `parse_from_body` normalization moves each present
manufacturer-style key (`accessToken`, `idToken`, `refreshToken`) to the
corresponding snake_case key with the same value, and no manufacturer-style
key remains afterwards. -/
theorem token_normalization_snake_case {V : Type} (d : PyDict V)
    (hnd : (dkeys d).Nodup) :
    (∀ v, dget "accessToken" d = some v →
        dget "access_token" (normalizeTokenFields d) = some v) ∧
    (∀ v, dget "idToken" d = some v →
        dget "id_token" (normalizeTokenFields d) = some v) ∧
    (∀ v, dget "refreshToken" d = some v →
        dget "refresh_token" (normalizeTokenFields d) = some v) ∧
    dget "accessToken" (normalizeTokenFields d) = none ∧
    dget "idToken" (normalizeTokenFields d) = none ∧
    dget "refreshToken" (normalizeTokenFields d) = none := by
  have hnd1 : (dkeys (renameKey "accessToken" "access_token" d)).Nodup :=
    nodup_renameKey _ _ d hnd
  have hnd2 : (dkeys (renameKey "idToken" "id_token"
      (renameKey "accessToken" "access_token" d))).Nodup :=
    nodup_renameKey _ _ _ hnd1
  unfold normalizeTokenFields
  refine ⟨?_, ?_, ?_, ?_, ?_, ?_⟩
  · intro v hv
    rw [dget_renameKey_other _ _ _ _ (by decide) (by decide),
        dget_renameKey_other _ _ _ _ (by decide) (by decide)]
    exact dget_renameKey_dst _ _ _ _ hv
  · intro v hv
    rw [dget_renameKey_other _ _ _ _ (by decide) (by decide)]
    refine dget_renameKey_dst _ _ _ _ ?_
    rw [dget_renameKey_other _ _ _ _ (by decide) (by decide)]
    exact hv
  · intro v hv
    refine dget_renameKey_dst _ _ _ _ ?_
    rw [dget_renameKey_other _ _ _ _ (by decide) (by decide),
        dget_renameKey_other _ _ _ _ (by decide) (by decide)]
    exact hv
  · rw [dget_renameKey_other _ _ _ _ (by decide) (by decide),
        dget_renameKey_other _ _ _ _ (by decide) (by decide)]
    exact dget_renameKey_src _ _ _ hnd (by decide)
  · rw [dget_renameKey_other _ _ _ _ (by decide) (by decide)]
    exact dget_renameKey_src _ _ _ hnd1 (by decide)
  · exact dget_renameKey_src _ _ _ hnd2 (by decide)

theorem token_normalization_snake_case_witness :
    (dkeys [("accessToken", 1), ("idToken", 2), ("refreshToken", 3), ("expiry", 4)]).Nodup ∧
    ((∀ v, dget "accessToken"
          [("accessToken", 1), ("idToken", 2), ("refreshToken", 3), ("expiry", 4)] = some v →
        dget "access_token" (normalizeTokenFields
          [("accessToken", 1), ("idToken", 2), ("refreshToken", 3), ("expiry", 4)]) = some v) ∧
     (∀ v, dget "idToken"
          [("accessToken", 1), ("idToken", 2), ("refreshToken", 3), ("expiry", 4)] = some v →
        dget "id_token" (normalizeTokenFields
          [("accessToken", 1), ("idToken", 2), ("refreshToken", 3), ("expiry", 4)]) = some v) ∧
     (∀ v, dget "refreshToken"
          [("accessToken", 1), ("idToken", 2), ("refreshToken", 3), ("expiry", 4)] = some v →
        dget "refresh_token" (normalizeTokenFields
          [("accessToken", 1), ("idToken", 2), ("refreshToken", 3), ("expiry", 4)]) = some v) ∧
     dget "accessToken" (normalizeTokenFields
        [("accessToken", 1), ("idToken", 2), ("refreshToken", 3), ("expiry", 4)]) = none ∧
     dget "idToken" (normalizeTokenFields
        [("accessToken", 1), ("idToken", 2), ("refreshToken", 3), ("expiry", 4)]) = none ∧
     dget "refreshToken" (normalizeTokenFields
        [("accessToken", 1), ("idToken", 2), ("refreshToken", 3), ("expiry", 4)]) = none) :=
  ⟨by decide,
   token_normalization_snake_case
     [("accessToken", (1 : ℕ)), ("idToken", 2), ("refreshToken", 3), ("expiry", 4)]
     (by decide)⟩

/-! ## C3: cache behaviour of the data fetcher -/

theorem fetchNetwork_gets_pos {α : Type} (now : ℤ) (allowEmpty allowHttpError : Bool)
    (allowedErrors : Option (List Nat)) (url : String) (cache : PyDict (Option α × ℤ))
    (data0 : Option α) (responses : List (NetResponse α)) :
    1 ≤ (fetchNetwork now allowEmpty allowHttpError allowedErrors url cache data0
          responses).gets := by
  unfold fetchNetwork fetchRetryAfter401
  repeat' split
  all_goals norm_num

/-- Claim C3 (counterexample): the claim fails when the cached payload is
JSON `null`.  Here `no_cache` is false, a cache entry for the URL exists,
and its age (0 seconds) is strictly below `max_age` (1000 seconds), yet
`_fetch_data` issues a network GET, because the cached `None` payload makes
the `data is None` refetch test true. -/
theorem fetch_fresh_null_cache_still_gets :
    (fetch_data (α := String) (some 1000) 100 false false false none "u"
        [("u", (none, 100))] [.http 200 (.ok (some "payload"))]).gets = 1 ∧
    ((100 : ℤ) - 100 < 1000) := by
  exact ⟨rfl, by decide⟩

/-- Claim C3 (amended): if `no_cache` is false, a cache entry for the URL
exists whose payload is not JSON `null`, and the entry's age is strictly
less than the configured `max_age`, then `_fetch_data` returns the cached
payload without issuing any network request; if `no_cache` is true, it
always issues at least one network request regardless of cache freshness. -/
theorem fetch_data_cache_behavior {α : Type} :
    (∀ (m now cd : ℤ) (p : α) (allowEmpty allowHttpError : Bool)
        (allowedErrors : Option (List Nat)) (url : String)
        (cache : PyDict (Option α × ℤ)) (responses : List (NetResponse α)),
        dget url cache = some (some p, cd) → now - cd < m →
        fetch_data (some m) now false allowEmpty allowHttpError allowedErrors url cache
            responses =
          { result := .ok (some p), cache := cache, gets := 0, logins := 0 }) ∧
    (∀ (maxAge : Option ℤ) (now : ℤ) (allowEmpty allowHttpError : Bool)
        (allowedErrors : Option (List Nat)) (url : String)
        (cache : PyDict (Option α × ℤ)) (responses : List (NetResponse α)),
        1 ≤ (fetch_data maxAge now true allowEmpty allowHttpError allowedErrors url cache
              responses).gets) := by
  constructor
  · intro m now cd p allowEmpty allowHttpError allowedErrors url cache responses hget hfresh
    have hns : ¬ (cd < now - m) := by omega
    simp [fetch_data, hget, hns]
  · intro maxAge now allowEmpty allowHttpError allowedErrors url cache responses
    simp only [fetch_data]
    simp only [Bool.not_true, Bool.false_and, if_neg]
    exact fetchNetwork_gets_pos now allowEmpty allowHttpError allowedErrors url cache
      none responses

theorem fetch_data_cache_behavior_witness :
    (dget "u" [("u", ((some "x" : Option String), (50 : ℤ)))] = some (some "x", 50)) ∧
    ((100 : ℤ) - 50 < 1000) ∧
    fetch_data (some 1000) 100 false false false none "u"
        [("u", ((some "x" : Option String), (50 : ℤ)))] [] =
      { result := .ok (some "x"),
        cache := [("u", ((some "x" : Option String), (50 : ℤ)))], gets := 0, logins := 0 } ∧
    1 ≤ (fetch_data (α := String) (some 1000) 100 true false false none "u"
          [("u", ((some "x" : Option String), (50 : ℤ)))] []).gets :=
  ⟨rfl, by decide,
   fetch_data_cache_behavior.1 1000 100 50 "x" false false none "u"
     [("u", (some "x", 50))] [] rfl (by decide),
   fetch_data_cache_behavior.2 (some 1000) 100 false false none "u"
     [("u", (some "x", 50))] []⟩

/-! ## C6: the 401 / re-login / retry path -/

theorem fetchRetryAfter401_counts {α : Type} (now : ℤ) (allowEmpty allowHttpError : Bool)
    (allowedErrors : Option (List Nat)) (url : String) (cache : PyDict (Option α × ℤ))
    (data0 : Option α) (retry : NetResponse α) :
    (fetchRetryAfter401 now allowEmpty allowHttpError allowedErrors url cache data0
        retry).gets = 2 ∧
    (fetchRetryAfter401 now allowEmpty allowHttpError allowedErrors url cache data0
        retry).logins = 1 := by
  unfold fetchRetryAfter401
  repeat' split
  all_goals exact ⟨rfl, rfl⟩

/-- Claim C6: when the URL is not in the cache and the initial GET answers
401, exactly one re-login and exactly one retried GET are performed; if the
retry succeeds with 200/207 the cache entry for the URL is updated with the
retried payload; if the retry fails with a disallowed status (per
`allow_http_error`/`allowed_errors`), a `RetrievalError` is raised. -/
theorem fetch_data_401_retry {α : Type} (maxAge : Option ℤ) (now : ℤ)
    (noCache allowEmpty allowHttpError : Bool) (allowedErrors : Option (List Nat))
    (url : String) (cache : PyDict (Option α × ℤ)) (b1 : Except Unit (Option α))
    (rest : List (NetResponse α)) (hmiss : dget url cache = none) :
    (fetch_data maxAge now noCache allowEmpty allowHttpError allowedErrors url cache
        (.http 401 b1 :: rest)).logins = 1 ∧
    (fetch_data maxAge now noCache allowEmpty allowHttpError allowedErrors url cache
        (.http 401 b1 :: rest)).gets = 2 ∧
    (∀ (s2 : Nat) (d : Option α) (rest' : List (NetResponse α)),
        rest = .http s2 (.ok d) :: rest' → (s2 = 200 ∨ s2 = 207) →
        (fetch_data maxAge now noCache allowEmpty allowHttpError allowedErrors url cache
            (.http 401 b1 :: rest)).result = .ok d ∧
        dget url (fetch_data maxAge now noCache allowEmpty allowHttpError allowedErrors
            url cache (.http 401 b1 :: rest)).cache = some (d, now)) ∧
    (∀ (s2 : Nat) (b2 : Except Unit (Option α)) (rest' : List (NetResponse α)),
        rest = .http s2 b2 :: rest' → ¬ (s2 = 200 ∨ s2 = 207) →
        statusDisallowed allowHttpError allowedErrors s2 = true →
        (fetch_data maxAge now noCache allowEmpty allowHttpError allowedErrors url cache
            (.http 401 b1 :: rest)).result = .error .retrieval) := by
  have hfd : fetch_data maxAge now noCache allowEmpty allowHttpError allowedErrors url
      cache (.http 401 b1 :: rest) =
      fetchRetryAfter401 now allowEmpty allowHttpError allowedErrors url cache none
        (rest.headD .netFail) := by
    simp [fetch_data, hmiss, fetchNetwork]
  refine ⟨?_, ?_, ?_, ?_⟩
  · rw [hfd]
    exact (fetchRetryAfter401_counts now allowEmpty allowHttpError allowedErrors url
      cache none (rest.headD .netFail)).2
  · rw [hfd]
    exact (fetchRetryAfter401_counts now allowEmpty allowHttpError allowedErrors url
      cache none (rest.headD .netFail)).1
  · intro s2 d rest' hrest hok
    subst hrest
    rw [hfd]
    simp only [List.headD_cons, fetchRetryAfter401, if_pos hok]
    exact ⟨trivial, dget_dset_self url (d, now) cache⟩
  · intro s2 b2 rest' hrest hnok hdis
    subst hrest
    rw [hfd]
    simp only [List.headD_cons, fetchRetryAfter401, if_neg hnok]
    cases b2 <;> simp [hdis]

theorem fetch_data_401_retry_witness :
    (dget "u" ([] : PyDict (Option ℕ × ℤ)) = none) ∧
    (fetch_data (some 1000) 100 false false false none "u" []
        [.http 401 (.error ()), .http 200 (.ok (some 5))]).logins = 1 ∧
    (fetch_data (some 1000) 100 false false false none "u" []
        [.http 401 (.error ()), .http 200 (.ok (some 5))]).gets = 2 ∧
    (fetch_data (some 1000) 100 false false false none "u" []
        [.http 401 (.error ()), .http 200 (.ok (some 5))]).result = .ok (some 5) ∧
    dget "u" (fetch_data (some 1000) 100 false false false none "u" []
        [.http 401 (.error ()), .http 200 (.ok (some 5))]).cache = some (some 5, 100) := by
  have h := fetch_data_401_retry (α := ℕ) (some 1000) 100 false false false none "u" []
    (.error ()) [.http 200 (.ok (some 5))] rfl
  have h2 := h.2.2.1 200 (some 5) [] rfl (Or.inl rfl)
  exact ⟨rfl, h.1, h.2.1, h2.1, h2.2⟩

/-! ## C2: unknown enum-like strings in fetch_charging -/

/-- Claim C2 (counterexample): for the `maxChargeCurrentAc` and
`autoUnlockPlugWhenCharged` settings — both listed by the claim — a value
outside the known set is stored as `None`, not as an UNKNOWN sentinel
(connector.py lines 533-535 and 545-548). -/
theorem unknown_setting_maps_to_none :
    maxChargeCurrentAcValue "GARBAGE_CURRENT" = none ∧
    ("GARBAGE_CURRENT" = "MAXIMUM" ∨ "GARBAGE_CURRENT" = "REDUCED" → False) ∧
    autoUnlockPlugValue "GARBAGE_CURRENT" = none ∧
    ("GARBAGE_CURRENT" = "ON" ∨ "GARBAGE_CURRENT" = "PERMANENT" ∨
        "GARBAGE_CURRENT" = "OFF" → False) := by
  refine ⟨rfl, by decide, rfl, by decide⟩

/-- Claim C2 (amended): for the enum-valued fields of a charging payload
(charging state, charge type, preferred charge mode, charging care mode,
battery support), a value outside the fixed name set maps to the
corresponding UNKNOWN sentinel and never raises — for the charge type this
holds over any member-name list of the external `Charging.ChargingType`
enum; for the value-typed settings `maxChargeCurrentAc` and
`autoUnlockPlugWhenCharged`, a value outside the known literal set logs and
stores `None` instead of a sentinel, also without raising. -/
theorem unknown_enum_values_fetch_charging :
    (∀ s, s ∉ skodaChargingStateNames →
        parseChargingStateField s = ChargingState.UNKNOWN) ∧
    (∀ (chargingTypeNames : List String) (s : String), s ∉ chargingTypeNames →
        parseChargeTypeField chargingTypeNames s = ChargingTypeResult.UNKNOWN) ∧
    (∀ s, s ∉ skodaChargeModeNames →
        parsePreferredChargeMode s = SkodaChargeMode.UNKNOWN) ∧
    (∀ s, s ∉ ["ACTIVATED", "DEACTIVATED", "UNKNOWN"] →
        parseChargingCareMode s = SkodaChargingCareMode.UNKNOWN) ∧
    (∀ s, s ∉ ["ENABLED", "DISABLED", "NOT_ALLOWED", "UNKNOWN"] →
        parseBatterySupport s = SkodaBatterySupport.UNKNOWN) ∧
    (∀ s, s ∉ ["MAXIMUM", "REDUCED"] → maxChargeCurrentAcValue s = none) ∧
    (∀ s, s ∉ ["ON", "PERMANENT", "OFF"] → autoUnlockPlugValue s = none) := by
  refine ⟨?_, ?_, ?_, ?_, ?_, ?_, ?_⟩
  · intro s hs
    rw [parseChargingStateField, if_neg hs]
  · intro chargingTypeNames s hs
    rw [parseChargeTypeField, if_neg hs]
  · intro s hs
    rw [parsePreferredChargeMode, if_neg hs]
  · intro s hs
    simp only [List.mem_cons, List.mem_singleton, not_or] at hs
    obtain ⟨h1, h2, h3⟩ := hs
    simp [parseChargingCareMode, h1, h2]
  · intro s hs
    simp only [List.mem_cons, List.mem_singleton, not_or] at hs
    obtain ⟨h1, h2, h3, h4⟩ := hs
    simp [parseBatterySupport, h1, h2, h3]
  · intro s hs
    simp only [List.mem_cons, List.mem_singleton, not_or] at hs
    simp [maxChargeCurrentAcValue, hs.1, hs.2]
  · intro s hs
    simp only [List.mem_cons, List.mem_singleton, not_or] at hs
    simp [autoUnlockPlugValue, hs.1, hs.2.1, hs.2.2]

theorem unknown_enum_values_fetch_charging_witness :
    ("chargingUnexpected" ∉ skodaChargingStateNames) ∧
    parseChargingStateField "chargingUnexpected" = ChargingState.UNKNOWN ∧
    parseChargeTypeField ["AC", "DC", "OFF", "UNSUPPORTED", "UNKNOWN"]
      "chargingUnexpected" = ChargingTypeResult.UNKNOWN ∧
    parsePreferredChargeMode "chargingUnexpected" = SkodaChargeMode.UNKNOWN ∧
    parseChargingCareMode "chargingUnexpected" = SkodaChargingCareMode.UNKNOWN ∧
    parseBatterySupport "chargingUnexpected" = SkodaBatterySupport.UNKNOWN ∧
    maxChargeCurrentAcValue "chargingUnexpected" = none ∧
    autoUnlockPlugValue "chargingUnexpected" = none :=
  ⟨by decide,
   unknown_enum_values_fetch_charging.1 "chargingUnexpected" (by decide),
   unknown_enum_values_fetch_charging.2.1 ["AC", "DC", "OFF", "UNSUPPORTED", "UNKNOWN"]
     "chargingUnexpected" (by decide),
   unknown_enum_values_fetch_charging.2.2.1 "chargingUnexpected" (by decide),
   unknown_enum_values_fetch_charging.2.2.2.1 "chargingUnexpected" (by decide),
   unknown_enum_values_fetch_charging.2.2.2.2.1 "chargingUnexpected" (by decide),
   unknown_enum_values_fetch_charging.2.2.2.2.2.1 "chargingUnexpected" (by decide),
   unknown_enum_values_fetch_charging.2.2.2.2.2.2 "chargingUnexpected" (by decide)⟩

/-! ## C8: subtype promotion preserves capabilities and in_motion -/

theorem lookupRef_updateRef_map {β γ : Type} (r r' : Nat) (f : β → β) (proj : β → γ)
    (hf : ∀ o, proj (f o) = proj o) (l : List (Nat × β)) :
    (lookupRef r (updateRef r' f l)).map proj = (lookupRef r l).map proj := by
  induction l with
  | nil => rfl
  | cons e rest ih =>
      obtain ⟨r0, o⟩ := e
      by_cases h0 : r0 = r'
      · subst h0
        by_cases h1 : r0 = r
        · subst h1
          simp [updateRef, lookupRef, hf]
        · simp [updateRef, lookupRef, h1, ih]
      · by_cases h1 : r0 = r
        · subst h1
          simp [updateRef, lookupRef, h0]
        · simp [updateRef, lookupRef, h0, h1, ih]

/-- Claim C8: constructing a promoted vehicle from an origin vehicle keeps
the very same capabilities object and the same in-motion attribute object
(reference equality), and the promotion changes neither the capability set
nor the in-motion value (or its enabled flag) held by those objects — only
their parent pointer is re-aimed at the new vehicle. -/
theorem promotion_preserves_capabilities_in_motion (target : Powertrain)
    (newOid : Nat) (origin : VehicleObj) (store : ObjStore) :
    (promoteVehicle target newOid origin store).1.capabilitiesRef =
        origin.capabilitiesRef ∧
    (promoteVehicle target newOid origin store).1.inMotionRef = origin.inMotionRef ∧
    (lookupRef (promoteVehicle target newOid origin store).1.capabilitiesRef
        (promoteVehicle target newOid origin store).2.caps).map
        CapabilitiesObj.capabilityIds =
      (lookupRef origin.capabilitiesRef store.caps).map CapabilitiesObj.capabilityIds ∧
    (lookupRef (promoteVehicle target newOid origin store).1.inMotionRef
        (promoteVehicle target newOid origin store).2.boolAttrs).map
        (fun a => (a.enabled, a.value)) =
      (lookupRef origin.inMotionRef store.boolAttrs).map
        (fun a => (a.enabled, a.value)) := by
  unfold promoteVehicle
  dsimp only
  refine ⟨rfl, rfl, ?_, ?_⟩
  · exact lookupRef_updateRef_map origin.capabilitiesRef origin.capabilitiesRef
      (fun c : CapabilitiesObj => { c with parent := newOid })
      CapabilitiesObj.capabilityIds (fun o => rfl) store.caps
  · rw [lookupRef_updateRef_map origin.inMotionRef origin.ignitionOnRef
        (fun a : BoolAttrObj => { a with parent := newOid })
        (fun a : BoolAttrObj => (a.enabled, a.value)) (fun o => rfl),
      lookupRef_updateRef_map origin.inMotionRef origin.inMotionRef
        (fun a : BoolAttrObj => { a with parent := newOid })
        (fun a : BoolAttrObj => (a.enabled, a.value)) (fun o => rfl)]

/-! ## C1: the message callback can raise out of the feed thread -/

/-- An environment with an empty garage and no pending timers. -/
def mqttEmptyEnv : MqttEnv :=
  { garage := fun _ => none
    parseTime := fun _ => .ok 0
    now := 0
    pendingTimers := [] }

/-- Claim C1 (refuting evaluation): a non-empty message on a matched
service-event topic whose payload is not valid JSON makes
`_on_message_callback` raise the `json.loads` `JSONDecodeError` out of the
callback (mqtt_client.py line 466 has no guard), while a message on an
unrecognized topic is logged and dropped. -/
theorem message_callback_raises_on_invalid_json :
    onMessageCallback mqttEmptyEnv
      { topic := "deadbeef/TMBTEST1/service-event/charging"
        payloadIsEmpty := false
        payloadJson := .error .jsonDecodeError } = .error .jsonDecodeError ∧
    onMessageCallback mqttEmptyEnv
      { topic := "not a recognized topic"
        payloadIsEmpty := false
        payloadJson := .error .jsonDecodeError } = .ok [] := by
  exact ⟨rfl, rfl⟩

end Skoda
